import Mathlib

/-!
Verification of the KadamClash territory backend.

This file shallowly embeds the conquest-evaluation logic of the repository:
the geometric relation classifier `getRelation`, the battle scorer
`battleScore` and the per-rival evaluator `evaluateChallenge` from
`utils.js`, and the second `/api/run` request handler from `server.js`.
JavaScript numbers are modelled as rationals, JavaScript `||` defaulting on
optional fields is modelled explicitly, and the external turf geometry
primitives (`booleanContains`, `area`) are a parameter of the embedding,
instantiated with an executable model of axis-aligned rectangles for
concrete evaluations.
-/

namespace KadamClash

/-- JavaScript numeric defaulting `x || d` on an optional numeric field:
an absent field and the value `0` are both falsy and yield the default. -/
def jsOr (x : Option ℚ) (d : ℚ) : ℚ :=
  match x with
  | none => d
  | some v => if v = 0 then d else v

/-- JavaScript string defaulting `x || d`: an absent field and the empty
string are falsy and yield the default. -/
def jsOrStr (x : Option String) (d : String) : String :=
  match x with
  | none => d
  | some s => if s = "" then d else s

/-- The geometric relation values returned by `getRelation` in `utils.js`
(the function returns one of the strings `'contains'`, `'inside'`,
`'overlap'`; it has no disjoint case). -/
inductive Relation
  | contains
  | inside
  | overlap
deriving DecidableEq, Repr

/-- The outcome values produced by `evaluateChallenge` in `utils.js`
(`'won'`, `'lost'`, `'autoWon'`). -/
inductive Outcome
  | won
  | lost
  | autoWon
deriving DecidableEq, Repr

/-- Abstraction of the two turf geometry primitives used by `utils.js`:
`turf.booleanContains` and `turf.area`. The turf library is external to the
repository, so it is a parameter of the embedding. -/
structure Turf (P : Type) where
  booleanContains : P → P → Bool
  area : P → ℚ

/-- A populated owner reference: mongoose `populate('ownerId', 'username')`
yields an owner document carrying a username that may be missing. -/
structure Owner where
  id : ℕ
  username : Option String
deriving DecidableEq, Repr

/-- A Territory record (`models.js`) as consumed by `utils.js` and
`server.js`. Fields that the JavaScript code reads through `||` defaulting
or optional chaining are Option-valued. -/
structure Territory (P : Type) where
  id : ℕ
  owner : Option Owner
  geometry : P
  area : Option ℚ
  bestTime : Option ℚ
  maxLaps : Option ℚ
  avgSpeed : Option ℚ
deriving DecidableEq, Repr

/-- Models the expression `territory.ownerId?.username || 'unknown'`. -/
def Territory.ownerName {P : Type} (t : Territory P) : String :=
  jsOrStr (t.owner.bind Owner.username) "unknown"

/-- `getRelation(polygonA, polygonB)` from `utils.js`: test containment of
B in A first, then of A in B, otherwise report overlap. -/
def getRelation {P : Type} (T : Turf P) (polygonA polygonB : P) : Relation :=
  let contains := T.booleanContains polygonA polygonB
  if contains then .contains
  else
    let inside := T.booleanContains polygonB polygonA
    if inside then .inside
    else .overlap

/-- `battleScore(avgSpeed, laps)` from `utils.js`. -/
def battleScore (avgSpeed laps : ℚ) : ℚ :=
  avgSpeed * 1000 + laps * 10

/-- The result object of `evaluateChallenge`: an outcome plus an optional
human-readable message. -/
structure ChallengeResult where
  outcome : Outcome
  message : Option String
deriving DecidableEq, Repr

/-- `evaluateChallenge(runPolygon, runAvgSpeed, runLaps, territory)` from
`utils.js`, translated branch for branch, including the message strings and
the unreachable fallback branch. -/
def evaluateChallenge {P : Type} (T : Turf P) (runPolygon : P)
    (runAvgSpeed runLaps : ℚ) (territory : Territory P) : ChallengeResult :=
  let enemyGeo := territory.geometry
  let runArea := T.area runPolygon
  let enemyArea := jsOr territory.area (T.area enemyGeo)
  let areaRatio := runArea / enemyArea
  let relation := getRelation T runPolygon enemyGeo
  if relation = .inside then
    { outcome := .lost
      message := some ("Your run is inside " ++ territory.ownerName ++ "'s territory.") }
  else
    let sizeOk := decide (areaRatio ≥ 0.8) && decide (areaRatio ≤ 1.2)
    if relation = .contains then
      if !sizeOk then
        { outcome := .autoWon, message := none }
      else
        let userScore := battleScore runAvgSpeed runLaps
        let enemyScore := battleScore (jsOr territory.avgSpeed 0) (jsOr territory.maxLaps 1)
        if userScore > enemyScore then
          { outcome := .won, message := none }
        else
          { outcome := .lost
            message := some ("😵 You were defeated by " ++ territory.ownerName ++ ".") }
    else if relation = .overlap then
      if !sizeOk then
        { outcome := .lost
          message := some ("Your run overlaps " ++ territory.ownerName ++
            "'s territory but you are too " ++
            (if areaRatio < 0.8 then "small" else "large") ++ " to challenge.") }
      else
        let userScore := battleScore runAvgSpeed runLaps
        let enemyScore := battleScore (jsOr territory.avgSpeed 0) (jsOr territory.maxLaps 1)
        if userScore > enemyScore then
          { outcome := .won, message := none }
        else
          { outcome := .lost
            message := some ("😵 You were defeated by " ++ territory.ownerName ++ ".") }
    else
      { outcome := .lost, message := some "Unknown error." }

/-- `calculateArea(geometry)` from `utils.js`: rebuild the polygon and take
its turf area. -/
def calculateArea {P : Type} (T : Turf P) (geometry : P) : ℚ :=
  T.area geometry

/-- Executable geometry model used to instantiate the turf primitives on
concrete inputs: axis-aligned rectangles with rational corners. -/
structure Rect where
  x1 : ℚ
  x2 : ℚ
  y1 : ℚ
  y2 : ℚ
deriving DecidableEq, Repr

/-- Containment of closed axis-aligned rectangles. -/
def Rect.bContains (a b : Rect) : Bool :=
  decide (a.x1 ≤ b.x1) && decide (b.x2 ≤ a.x2) &&
  decide (a.y1 ≤ b.y1) && decide (b.y2 ≤ a.y2)

/-- Area of an axis-aligned rectangle. -/
def Rect.rArea (r : Rect) : ℚ :=
  (r.x2 - r.x1) * (r.y2 - r.y1)

/-- The turf primitives instantiated on rectangles. -/
def rectTurf : Turf Rect :=
  { booleanContains := Rect.bContains, area := Rect.rArea }

/-- A nondegenerate rectangle. -/
def Rect.proper (r : Rect) : Prop :=
  r.x1 ≤ r.x2 ∧ r.y1 ≤ r.y2

instance (r : Rect) : Decidable r.proper :=
  inferInstanceAs (Decidable (r.x1 ≤ r.x2 ∧ r.y1 ≤ r.y2))

/-- Strict separation of two closed rectangles: they share no point. -/
def Rect.disjointWith (a b : Rect) : Bool :=
  decide (a.x2 < b.x1) || decide (b.x2 < a.x1) ||
  decide (a.y2 < b.y1) || decide (b.y2 < a.y1)

/-- An Attempt record (`models.js`) as created by the `/api/run` handler. -/
structure Attempt where
  userId : ℕ
  territoryId : ℕ
  duration : ℚ
  laps : ℚ
  avgSpeed : ℚ
deriving DecidableEq, Repr

/-- The mutable local state of the battle loop in the second `/api/run`
handler of `server.js`: the `battled`/`captured`/`defended` flags, the
response identifiers, the persisted state of the iterated territories and
the Attempt records saved so far. -/
structure LoopState (P : Type) where
  battled : Bool
  captured : Bool
  defended : Bool
  territoryId : Option ℕ
  newOwner : Option ℕ
  previousOwner : Option String
  defender : Option String
  savedTerritories : List (Territory P)
  attempts : List Attempt
deriving DecidableEq, Repr

/-- The loop state at entry of the battle loop. -/
def initLoopState {P : Type} : LoopState P :=
  { battled := false, captured := false, defended := false,
    territoryId := none, newOwner := none, previousOwner := none,
    defender := none, savedTerritories := [], attempts := [] }

/-- The `for (const territory of intersectingTerritories)` loop of the
second `/api/run` handler in `server.js`. `cov` stands for
`calculateCoverage` and `bo` for `battleOutcome`; both are imported there
from `./utils` but have no definition in the repository sources, so they
are parameters. A territory battles only when its coverage is at least 70
and no battle has happened yet; a win overwrites the territory record, a
loss sets the defended flag; either way an Attempt record is saved. -/
def battleLoop {P : Type} (cov : P → P → ℚ) (bo : Territory P → ℚ → ℚ → Bool)
    (userId : ℕ) (polygon : P) (duration laps avgSpeed : ℚ) :
    List (Territory P) → LoopState P → LoopState P
  | [], s => s
  | territory :: rest, s =>
    let coverage := cov polygon territory.geometry
    if coverage ≥ 70 ∧ s.battled = false then
      let challengerWins := bo territory duration laps
      let s1 := { s with previousOwner := some territory.ownerName }
      let s2 :=
        if challengerWins then
          { s1 with captured := true,
                    territoryId := some territory.id,
                    newOwner := some userId,
                    savedTerritories := s1.savedTerritories ++
                      [{ territory with
                           owner := some { id := userId, username := none },
                           bestTime := some (duration / laps),
                           maxLaps := some laps,
                           avgSpeed := some avgSpeed }] }
        else
          { s1 with defended := true,
                    territoryId := some territory.id,
                    defender := some territory.ownerName,
                    savedTerritories := s1.savedTerritories ++ [territory] }
      let s3 := { s2 with battled := true,
                          attempts := s2.attempts ++
                            [{ userId := userId, territoryId := territory.id,
                               duration := duration, laps := laps,
                               avgSpeed := avgSpeed }] }
      battleLoop cov bo userId polygon duration laps avgSpeed rest s3
    else
      battleLoop cov bo userId polygon duration laps avgSpeed rest
        { s with savedTerritories := s.savedTerritories ++ [territory] }

/-- The response payload of the second `/api/run` handler, together with
the persisted effects of the request: the post-state of the intersecting
territories, the newly created territory if any, and the saved Attempt
records. -/
structure RunResult (P : Type) where
  created : Bool
  captured : Bool
  defended : Bool
  territoryId : Option ℕ
  newOwner : Option ℕ
  previousOwner : Option String
  defender : Option String
  savedTerritories : List (Territory P)
  newTerritory : Option (Territory P)
  attempts : List Attempt
deriving DecidableEq, Repr

/-- The `new Territory({...})` record built by the handler when no battle
happened. -/
def newTerritoryRecord {P : Type} (userId freshId : ℕ) (polygon : P)
    (runArea duration laps avgSpeed : ℚ) : Territory P :=
  { id := freshId, owner := some { id := userId, username := none },
    geometry := polygon, area := some runArea,
    bestTime := some (duration / laps), maxLaps := some laps,
    avgSpeed := some avgSpeed }

/-- The evaluation core of the second `/api/run` handler in `server.js`,
after input validation and the spatial pre-filter: create a territory when
no rival intersects, otherwise run the battle loop, and create a territory
when no rival reached the coverage threshold. `freshId` stands for the
identifier mongoose generates for a new record. -/
def runHandler {P : Type} (T : Turf P) (cov : P → P → ℚ)
    (bo : Territory P → ℚ → ℚ → Bool) (userId freshId : ℕ) (polygon : P)
    (duration laps avgSpeed : ℚ)
    (intersectingTerritories : List (Territory P)) : RunResult P :=
  let runArea := calculateArea T polygon
  if intersectingTerritories.isEmpty then
    { created := true, captured := false, defended := false,
      territoryId := some freshId, newOwner := some userId,
      previousOwner := none, defender := none,
      savedTerritories := intersectingTerritories,
      newTerritory := some (newTerritoryRecord userId freshId polygon runArea
        duration laps avgSpeed),
      attempts := [{ userId := userId, territoryId := freshId,
                     duration := duration, laps := laps, avgSpeed := avgSpeed }] }
  else
    let s := battleLoop cov bo userId polygon duration laps avgSpeed
      intersectingTerritories initLoopState
    if s.battled = false then
      { created := true, captured := s.captured, defended := s.defended,
        territoryId := some freshId, newOwner := some userId,
        previousOwner := s.previousOwner, defender := s.defender,
        savedTerritories := s.savedTerritories,
        newTerritory := some (newTerritoryRecord userId freshId polygon runArea
          duration laps avgSpeed),
        attempts := s.attempts ++ [{ userId := userId, territoryId := freshId,
                                     duration := duration, laps := laps,
                                     avgSpeed := avgSpeed }] }
    else
      { created := false, captured := s.captured, defended := s.defended,
        territoryId := s.territoryId, newOwner := s.newOwner,
        previousOwner := s.previousOwner, defender := s.defender,
        savedTerritories := s.savedTerritories, newTerritory := none,
        attempts := s.attempts }

/-- Exactly one of the three response flags is set. -/
def exactlyOneFlag {P : Type} (r : RunResult P) : Prop :=
  (r.created = true ∧ r.captured = false ∧ r.defended = false) ∨
  (r.created = false ∧ r.captured = true ∧ r.defended = false) ∨
  (r.created = false ∧ r.captured = false ∧ r.defended = true)

/-- The flag invariant maintained by the battle loop. -/
def flagInv {P : Type} (s : LoopState P) : Prop :=
  (s.battled = false → s.captured = false ∧ s.defended = false) ∧
  (s.battled = true →
    (s.captured = true ∧ s.defended = false) ∨
    (s.captured = false ∧ s.defended = true))

/-- A raw GPS coordinate: a (longitude, latitude) pair. -/
abbrev Point := ℚ × ℚ

/-- Failure modes of the polygon normalizer, from the spec. -/
inductive NormError
  | malformedPath
  | tooSmall
deriving DecidableEq, Repr

/-- A normalized run polygon: a closed ring together with its area. -/
structure RunPolygon where
  ring : List Point
  area : ℚ
deriving DecidableEq, Repr

/-- Modelled from the spec: step 1 of the normalizer, whose implementation
(the body of `createRunPolygon`) is not present under the repository
sources — if the first and last coordinate differ, append the first
coordinate to close the ring. -/
def closeRing (coords : List Point) : List Point :=
  match coords.head?, coords.getLast? with
  | some f, some l => if l ≠ f then coords ++ [f] else coords
  | _, _ => coords

/-- Modelled from the spec: a planar area term for the normalizer model
(the shoelace sum of a ring; the sources that would fix the projection are
missing). -/
def shoelace : List Point → ℚ
  | p :: q :: rest => (p.1 * q.2 - q.1 * p.2) + shoelace (q :: rest)
  | _ => 0

/-- Modelled from the spec: area of a closed ring. -/
def ringArea (ring : List Point) : ℚ :=
  |shoelace ring| / 2

/-- Modelled from the spec: `normalize(rawCoordinates) → RunPolygon`, the
body of `createRunPolygon`, which `utils.js` exports but whose definition
is missing from the repository sources. Following spec §4.1: fail with
`MalformedPathError` when fewer than 4 distinct points are supplied; close
the ring; reject polygons with area below 200 with `TooSmallError`. The
self-intersection repair step is not modelled (no claim reaches it); the
closed ring is taken as the canonical polygon. The function is pure: it
performs no database interaction on any path. -/
def createRunPolygon (rawCoordinates : List Point) : Except NormError RunPolygon :=
  if rawCoordinates.dedup.length < 4 then
    .error .malformedPath
  else
    let ring := closeRing rawCoordinates
    let a := ringArea ring
    if a < 200 then .error .tooSmall
    else .ok { ring := ring, area := a }

/-- Witness fixture: the unit square at the origin. -/
def wSquare : Rect := ⟨0, 1, 0, 1⟩

/-- Witness fixture: a unit square beside `wSquare`, overlapping it without
containment in either direction. -/
def wShift : Rect := ⟨1, 2, 0, 1⟩

/-- Witness fixture: a unit square far from the origin. -/
def wFar : Rect := ⟨10, 11, 10, 11⟩

/-- Witness fixture: a large square containing the others near the origin. -/
def wBig : Rect := ⟨0, 10, 0, 10⟩

/-- Witness fixture: a small square inside `wBig`. -/
def wInner : Rect := ⟨1, 2, 1, 2⟩

/-- Witness fixture: a rival territory over a given geometry. -/
def mkTerritory (g : Rect) (a s l : Option ℚ) : Territory Rect :=
  { id := 1, owner := none, geometry := g, area := a, bestTime := none,
    maxLaps := l, avgSpeed := s }

/-- Witness fixture: a rival whose stats give it battle score 1010. -/
def tShift : Territory Rect := mkTerritory wShift (some 1) (some 1) (some 1)

/-- Witness fixture: a far-away rival with battle score 1010. -/
def tFar : Territory Rect := mkTerritory wFar (some 1) (some 1) (some 1)

/-- Witness fixture: a rival with absent avgSpeed and maxLaps fields. -/
def tDefault : Territory Rect := mkTerritory wShift (some 1) none none

/-- Counterexample fixture: first intersecting rival, with id 1. -/
def tA : Territory Rect :=
  { id := 1, owner := some { id := 7, username := some "alice" },
    geometry := wSquare, area := some 1, bestTime := some 10,
    maxLaps := some 2, avgSpeed := some 3 }

/-- Counterexample fixture: second intersecting rival, with id 2. -/
def tB : Territory Rect :=
  { id := 2, owner := some { id := 8, username := some "bob" },
    geometry := wShift, area := some 1, bestTime := some 10,
    maxLaps := some 2, avgSpeed := some 3 }

/-- Verdict fixture: a coverage function reporting full coverage. -/
def covAll (_ _ : Rect) : ℚ := 100

/-- Verdict fixture: a battle outcome under which only the rival with id 1
loses to the challenger, every other rival defeating it. -/
def boFirst (t : Territory Rect) (_ _ : ℚ) : Bool :=
  decide (t.id = 1)

/-- Verdict fixture: a battle outcome under which every rival defeats the
challenger. -/
def boNever (_ : Territory Rect) (_ _ : ℚ) : Bool :=
  false

lemma bContains_eq_false_of_disjoint {a b : Rect} (ha : a.proper) (hb : b.proper)
    (h : a.disjointWith b = true) : Rect.bContains a b = false := by
  rw [Bool.eq_false_iff]
  intro hc
  simp only [Rect.bContains, Bool.and_eq_true, decide_eq_true_eq] at hc
  obtain ⟨⟨⟨h1, h2⟩, h3⟩, h4⟩ := hc
  simp only [Rect.disjointWith, Bool.or_eq_true, decide_eq_true_eq] at h
  obtain ⟨ha1, ha2⟩ := ha
  obtain ⟨hb1, hb2⟩ := hb
  rcases h with ((h | h) | h) | h <;> linarith

lemma disjointWith_comm {a b : Rect} (h : a.disjointWith b = true) :
    b.disjointWith a = true := by
  simp only [Rect.disjointWith, Bool.or_eq_true, decide_eq_true_eq] at h ⊢
  rcases h with ((h | h) | h) | h
  · exact Or.inl (Or.inl (Or.inr h))
  · exact Or.inl (Or.inl (Or.inl h))
  · exact Or.inr h
  · exact Or.inl (Or.inr h)

lemma getRelation_of_disjoint {a b : Rect} (ha : a.proper) (hb : b.proper)
    (h : a.disjointWith b = true) : getRelation rectTurf a b = .overlap := by
  have h1 : Rect.bContains a b = false := bContains_eq_false_of_disjoint ha hb h
  have h2 : Rect.bContains b a = false :=
    bContains_eq_false_of_disjoint hb ha (disjointWith_comm h)
  simp [getRelation, rectTurf, h1, h2]

lemma evaluateChallenge_band {P : Type} (T : Turf P) (runPolygon : P)
    (runAvgSpeed runLaps : ℚ) (territory : Territory P)
    (hrel : getRelation T runPolygon territory.geometry = .contains ∨
            getRelation T runPolygon territory.geometry = .overlap)
    (h8 : 0.8 ≤ T.area runPolygon / jsOr territory.area (T.area territory.geometry))
    (h12 : T.area runPolygon / jsOr territory.area (T.area territory.geometry) ≤ 1.2) :
    (evaluateChallenge T runPolygon runAvgSpeed runLaps territory).outcome =
      if battleScore runAvgSpeed runLaps >
          battleScore (jsOr territory.avgSpeed 0) (jsOr territory.maxLaps 1)
      then .won else .lost := by
  rcases hrel with h | h <;>
    simp [evaluateChallenge, h, h8, h12, apply_ite ChallengeResult.outcome]

/-- C2: whenever the relation of the run polygon to the rival geometry is
INSIDE, the per-rival evaluation returns LOST, for every challenger score
and every size ratio. -/
theorem inside_unconditionally_lost {P : Type} (T : Turf P) (runPolygon : P)
    (runAvgSpeed runLaps : ℚ) (territory : Territory P)
    (h : getRelation T runPolygon territory.geometry = .inside) :
    (evaluateChallenge T runPolygon runAvgSpeed runLaps territory).outcome = .lost := by
  simp [evaluateChallenge, h]

/-- Witness for C2 on the rectangle model: a small square fully inside a
large rival is classified INSIDE and loses. -/
theorem inside_unconditionally_lost_witness :
    getRelation rectTurf wInner (mkTerritory wBig none none none).geometry =
      Relation.inside ∧
    (evaluateChallenge rectTurf wInner 5 3 (mkTerritory wBig none none none)).outcome =
      Outcome.lost :=
  ⟨by decide, inside_unconditionally_lost rectTurf wInner 5 3
    (mkTerritory wBig none none none) (by decide)⟩

/-- C3: whenever the relation is CONTAINS and the size ratio lies outside
the band [0.8, 1.2], the per-rival evaluation returns AUTO_WON with no
message, for every challenger score — no score comparison takes place. -/
theorem contains_size_mismatch_auto_won {P : Type} (T : Turf P) (runPolygon : P)
    (runAvgSpeed runLaps : ℚ) (territory : Territory P)
    (hrel : getRelation T runPolygon territory.geometry = .contains)
    (hsz : T.area runPolygon / jsOr territory.area (T.area territory.geometry) < 0.8 ∨
           1.2 < T.area runPolygon / jsOr territory.area (T.area territory.geometry)) :
    evaluateChallenge T runPolygon runAvgSpeed runLaps territory =
      { outcome := .autoWon, message := none } := by
  rcases hsz with h | h
  · simp [evaluateChallenge, hrel, not_le.mpr h]
  · simp [evaluateChallenge, hrel, not_le.mpr h]

/-- Witness for C3 on the rectangle model: a big square fully containing a
unit rival at size ratio 100 is an automatic conquest. -/
theorem contains_size_mismatch_auto_won_witness :
    getRelation rectTurf wBig (mkTerritory wSquare (some 1) (some 9) (some 9)).geometry =
      Relation.contains ∧
    evaluateChallenge rectTurf wBig 1 1 (mkTerritory wSquare (some 1) (some 9) (some 9)) =
      { outcome := Outcome.autoWon, message := none } :=
  ⟨by decide, contains_size_mismatch_auto_won rectTurf wBig 1 1
    (mkTerritory wSquare (some 1) (some 9) (some 9)) (by decide)
    (by norm_num [rectTurf, Rect.rArea, wBig, mkTerritory, wSquare, jsOr])⟩

/-- C4: whenever the relation is CONTAINS or OVERLAP and the size ratio
lies in [0.8, 1.2], the per-rival evaluation returns WON exactly when the
challenger's battle score strictly exceeds the rival's battle score (the
rival's avgSpeed and maxLaps read with the defaults 0 and 1 the code
applies), and LOST otherwise — in particular a tie is LOST. -/
theorem comparable_band_score_decides {P : Type} (T : Turf P) (runPolygon : P)
    (runAvgSpeed runLaps : ℚ) (territory : Territory P)
    (hrel : getRelation T runPolygon territory.geometry = .contains ∨
            getRelation T runPolygon territory.geometry = .overlap)
    (h8 : 0.8 ≤ T.area runPolygon / jsOr territory.area (T.area territory.geometry))
    (h12 : T.area runPolygon / jsOr territory.area (T.area territory.geometry) ≤ 1.2) :
    (evaluateChallenge T runPolygon runAvgSpeed runLaps territory).outcome =
      if battleScore runAvgSpeed runLaps >
          battleScore (jsOr territory.avgSpeed 0) (jsOr territory.maxLaps 1)
      then .won else .lost :=
  evaluateChallenge_band T runPolygon runAvgSpeed runLaps territory hrel h8 h12

/-- Witness for C4 on the rectangle model: two overlapping unit squares at
size ratio 1; challenger score 2010 beats rival score 1010. -/
theorem comparable_band_score_decides_witness :
    (evaluateChallenge rectTurf wSquare 2 1 tShift).outcome =
      if battleScore 2 1 > battleScore (jsOr tShift.avgSpeed 0) (jsOr tShift.maxLaps 1)
      then Outcome.won else Outcome.lost :=
  comparable_band_score_decides rectTurf wSquare 2 1 tShift (Or.inr (by decide))
    (by norm_num [rectTurf, Rect.rArea, wSquare, tShift, mkTerritory, jsOr])
    (by norm_num [rectTurf, Rect.rArea, wSquare, tShift, mkTerritory, jsOr])

/-- C7: when the containment test holds of a polygon against itself (as it
does for equal polygons), the relation classifier returns CONTAINS and not
INSIDE — the first containment branch wins the tie. -/
theorem relate_self_contains {P : Type} (T : Turf P) (p : P)
    (h : T.booleanContains p p = true) :
    getRelation T p p = .contains ∧ getRelation T p p ≠ .inside := by
  constructor
  · simp [getRelation, h]
  · simp [getRelation, h]

/-- Witness for C7 on the rectangle model: the unit square contains itself
and is classified CONTAINS. -/
theorem relate_self_contains_witness :
    getRelation rectTurf wSquare wSquare = Relation.contains ∧
    getRelation rectTurf wSquare wSquare ≠ Relation.inside :=
  relate_self_contains rectTurf wSquare (by decide)

/-- C8: for a fixed rival, a fixed run polygon in OVERLAP relation and a
size ratio inside [0.8, 1.2], the evaluation is monotone in the challenger
score: if a lower-scoring attempt wins, every attempt scoring at least as
much also wins. -/
theorem overlap_band_score_monotone {P : Type} (T : Turf P) (runPolygon : P)
    (s1 l1 s2 l2 : ℚ) (territory : Territory P)
    (hrel : getRelation T runPolygon territory.geometry = .overlap)
    (h8 : 0.8 ≤ T.area runPolygon / jsOr territory.area (T.area territory.geometry))
    (h12 : T.area runPolygon / jsOr territory.area (T.area territory.geometry) ≤ 1.2)
    (hmono : battleScore s1 l1 ≤ battleScore s2 l2)
    (hwon : (evaluateChallenge T runPolygon s1 l1 territory).outcome = .won) :
    (evaluateChallenge T runPolygon s2 l2 territory).outcome = .won := by
  have e1 := evaluateChallenge_band T runPolygon s1 l1 territory (Or.inr hrel) h8 h12
  have e2 := evaluateChallenge_band T runPolygon s2 l2 territory (Or.inr hrel) h8 h12
  rw [e1] at hwon
  rw [e2]
  by_cases hc : battleScore s1 l1 >
      battleScore (jsOr territory.avgSpeed 0) (jsOr territory.maxLaps 1)
  · have hgt : battleScore s2 l2 >
        battleScore (jsOr territory.avgSpeed 0) (jsOr territory.maxLaps 1) :=
      lt_of_lt_of_le hc hmono
    simp [hgt]
  · simp [hc] at hwon

/-- Witness for C8 on the rectangle model: with rival score 1010, the
attempt scoring 2010 wins, so the attempt scoring 3010 also wins. -/
theorem overlap_band_score_monotone_witness :
    (evaluateChallenge rectTurf wSquare 3 1 tShift).outcome = Outcome.won :=
  overlap_band_score_monotone rectTurf wSquare 2 1 3 1 tShift (by decide)
    (by norm_num [rectTurf, Rect.rArea, wSquare, tShift, mkTerritory, jsOr])
    (by norm_num [rectTurf, Rect.rArea, wSquare, tShift, mkTerritory, jsOr])
    (by norm_num [battleScore])
    (by
      rw [evaluateChallenge_band rectTurf wSquare 2 1 tShift (Or.inr (by decide))
        (by norm_num [rectTurf, Rect.rArea, wSquare, tShift, mkTerritory, jsOr])
        (by norm_num [rectTurf, Rect.rArea, wSquare, tShift, mkTerritory, jsOr])]
      norm_num [battleScore, tShift, mkTerritory, jsOr])

/-- C10: a rival territory whose avgSpeed field is absent or 0 and whose
maxLaps field is absent is scored with the defaults 0 and 1, for a battle
score of exactly 10; inside the comparable-size band any challenger whose
battle score exceeds 10 defeats it. -/
theorem defaulted_rival_score_ten {P : Type} (T : Turf P) (runPolygon : P)
    (runAvgSpeed runLaps : ℚ) (territory : Territory P)
    (hs : territory.avgSpeed = none ∨ territory.avgSpeed = some 0)
    (hl : territory.maxLaps = none)
    (hrel : getRelation T runPolygon territory.geometry = .contains ∨
            getRelation T runPolygon territory.geometry = .overlap)
    (h8 : 0.8 ≤ T.area runPolygon / jsOr territory.area (T.area territory.geometry))
    (h12 : T.area runPolygon / jsOr territory.area (T.area territory.geometry) ≤ 1.2) :
    battleScore (jsOr territory.avgSpeed 0) (jsOr territory.maxLaps 1) = 10 ∧
    (battleScore runAvgSpeed runLaps > 10 →
      (evaluateChallenge T runPolygon runAvgSpeed runLaps territory).outcome = .won) := by
  have hscore : battleScore (jsOr territory.avgSpeed 0) (jsOr territory.maxLaps 1) = 10 := by
    rcases hs with h | h <;> · rw [h, hl]; norm_num [jsOr, battleScore]
  refine ⟨hscore, fun hgt => ?_⟩
  rw [evaluateChallenge_band T runPolygon runAvgSpeed runLaps territory hrel h8 h12,
    hscore]
  simp [hgt]

/-- Witness for C10 on the rectangle model: a rival with absent stats has
score 10 and is beaten by a challenger of score 2010. -/
theorem defaulted_rival_score_ten_witness :
    battleScore (jsOr tDefault.avgSpeed 0) (jsOr tDefault.maxLaps 1) = 10 ∧
    (battleScore 2 1 > 10 →
      (evaluateChallenge rectTurf wSquare 2 1 tDefault).outcome = Outcome.won) :=
  defaulted_rival_score_ten rectTurf wSquare 2 1 tDefault (Or.inl (by decide))
    (by decide) (Or.inr (by decide))
    (by norm_num [rectTurf, Rect.rArea, wSquare, tDefault, mkTerritory, jsOr])
    (by norm_num [rectTurf, Rect.rArea, wSquare, tDefault, mkTerritory, jsOr])

/-- C5 (amended): the per-rival evaluation is a total function, but a pair
of actually disjoint polygons is classified OVERLAP (the classifier has no
DISJOINT case) and falls through to the ordinary size and score rules, so
its outcome is LOST or WON; no internal consistency error is surfaced. -/
theorem disjoint_becomes_overlap_battle (run : Rect) (runAvgSpeed runLaps : ℚ)
    (territory : Territory Rect) (hrun : run.proper) (ht : territory.geometry.proper)
    (hd : run.disjointWith territory.geometry = true) :
    getRelation rectTurf run territory.geometry = .overlap ∧
    ((evaluateChallenge rectTurf run runAvgSpeed runLaps territory).outcome = .lost ∨
     (evaluateChallenge rectTurf run runAvgSpeed runLaps territory).outcome = .won) := by
  have hrel := getRelation_of_disjoint hrun ht hd
  refine ⟨hrel, ?_⟩
  by_cases h8 : 0.8 ≤ rectTurf.area run / jsOr territory.area (rectTurf.area territory.geometry)
  · by_cases h12 : rectTurf.area run / jsOr territory.area (rectTurf.area territory.geometry) ≤ 1.2
    · rw [evaluateChallenge_band rectTurf run runAvgSpeed runLaps territory
        (Or.inr hrel) h8 h12]
      by_cases hc : battleScore runAvgSpeed runLaps >
          battleScore (jsOr territory.avgSpeed 0) (jsOr territory.maxLaps 1)
      · right; simp [hc]
      · left; simp [hc]
    · left
      simp [evaluateChallenge, hrel, not_le.mp h12]
  · left
    simp [evaluateChallenge, hrel, not_le.mp h8]

/-- Witness for C5 (amended): two disjoint unit squares are classified
OVERLAP and the evaluation still returns a plain outcome. -/
theorem disjoint_becomes_overlap_battle_witness :
    getRelation rectTurf wSquare tFar.geometry = Relation.overlap ∧
    ((evaluateChallenge rectTurf wSquare 2 1 tFar).outcome = Outcome.lost ∨
     (evaluateChallenge rectTurf wSquare 2 1 tFar).outcome = Outcome.won) :=
  disjoint_becomes_overlap_battle wSquare 2 1 tFar (by decide) (by decide) (by decide)

/-- Counterexample to C5 as stated: the run `wSquare` and the rival
geometry `wFar` are actually disjoint, yet the evaluation maps the pair to
a WON outcome instead of surfacing an internal consistency error. -/
theorem disjoint_mapped_to_won_counterexample :
    wSquare.disjointWith tFar.geometry = true ∧
    (evaluateChallenge rectTurf wSquare 2 1 tFar).outcome = Outcome.won := by
  constructor
  · decide
  · norm_num [evaluateChallenge, getRelation, rectTurf, Rect.bContains, Rect.rArea,
      tFar, mkTerritory, wSquare, wFar, jsOr, battleScore]
    decide

lemma battleLoop_flagInv {P : Type} (cov : P → P → ℚ) (bo : Territory P → ℚ → ℚ → Bool)
    (userId : ℕ) (polygon : P) (duration laps avgSpeed : ℚ) :
    ∀ (ts : List (Territory P)) (s : LoopState P), flagInv s →
      flagInv (battleLoop cov bo userId polygon duration laps avgSpeed ts s) := by
  intro ts
  induction ts with
  | nil => intro s h; simpa [battleLoop] using h
  | cons t rest ih =>
    intro s h
    simp only [battleLoop]
    by_cases hc : cov polygon t.geometry ≥ 70 ∧ s.battled = false
    · rw [if_pos hc]
      apply ih
      cases hw : bo t duration laps <;>
        simp [flagInv, hw, (h.1 hc.2).1, (h.1 hc.2).2]
    · rw [if_neg hc]
      apply ih
      exact ⟨fun hb => h.1 hb, fun hb => h.2 hb⟩

/-- C6: for every request the evaluation core processes to completion, the
response carries the three boolean flags and exactly one of `created`,
`captured`, `defended` is true. -/
theorem response_flags_exactly_one {P : Type} (T : Turf P) (cov : P → P → ℚ)
    (bo : Territory P → ℚ → ℚ → Bool) (userId freshId : ℕ) (polygon : P)
    (duration laps avgSpeed : ℚ) (intersectingTerritories : List (Territory P)) :
    exactlyOneFlag (runHandler T cov bo userId freshId polygon duration laps avgSpeed
      intersectingTerritories) := by
  have hinv := battleLoop_flagInv cov bo userId polygon duration laps avgSpeed
    intersectingTerritories initLoopState (by simp [flagInv, initLoopState])
  unfold runHandler
  by_cases he : intersectingTerritories.isEmpty = true
  · simp [he, exactlyOneFlag]
  · set s := battleLoop cov bo userId polygon duration laps avgSpeed
      intersectingTerritories initLoopState with hs
    by_cases hb : s.battled = false
    · obtain ⟨h1, h2⟩ := hinv.1 hb
      simp [he, hb, exactlyOneFlag, h1, h2]
    · have hbt : s.battled = true := by
        revert hb; cases s.battled <;> simp
      rcases hinv.2 hbt with ⟨h1, h2⟩ | ⟨h1, h2⟩ <;>
        simp [he, hb, exactlyOneFlag, h1, h2]

lemma battleLoop_battled_id {P : Type} (cov : P → P → ℚ) (bo : Territory P → ℚ → ℚ → Bool)
    (userId : ℕ) (polygon : P) (duration laps avgSpeed : ℚ) :
    ∀ (ts : List (Territory P)) (s : LoopState P), s.battled = true →
      battleLoop cov bo userId polygon duration laps avgSpeed ts s =
        { s with savedTerritories := s.savedTerritories ++ ts } := by
  intro ts
  induction ts with
  | nil => intro s h; simp [battleLoop]
  | cons t rest ih =>
    intro s h
    simp only [battleLoop]
    have hc : ¬(cov polygon t.geometry ≥ 70 ∧ s.battled = false) := by
      rintro ⟨-, hf⟩
      rw [h] at hf
      exact Bool.noConfusion hf
    rw [if_neg hc]
    rw [ih _ (by simpa using h)]
    simp [List.append_assoc]

lemma battleLoop_first_lost {P : Type} (cov : P → P → ℚ) (bo : Territory P → ℚ → ℚ → Bool)
    (userId : ℕ) (polygon : P) (duration laps avgSpeed : ℚ) :
    ∀ (ts : List (Territory P)) (s : LoopState P) (t : Territory P),
      s.battled = false →
      List.find? (fun u => decide (cov polygon u.geometry ≥ 70)) ts = some t →
      bo t duration laps = false →
      battleLoop cov bo userId polygon duration laps avgSpeed ts s =
        { s with battled := true, defended := true,
                 territoryId := some t.id,
                 previousOwner := some t.ownerName,
                 defender := some t.ownerName,
                 savedTerritories := s.savedTerritories ++ ts,
                 attempts := s.attempts ++
                   [{ userId := userId, territoryId := t.id, duration := duration,
                      laps := laps, avgSpeed := avgSpeed }] } := by
  intro ts
  induction ts with
  | nil => intro s t hb hf; simp [List.find?] at hf
  | cons u rest ih =>
    intro s t hb hf hlost
    by_cases hcov : cov polygon u.geometry ≥ 70
    · have ht : t = u := by
        rw [List.find?_cons_of_pos _ (by simpa using hcov)] at hf
        exact (Option.some_inj.mp hf).symm
      subst ht
      simp only [battleLoop]
      rw [if_pos ⟨hcov, hb⟩, hlost]
      rw [if_neg (by simp)]
      rw [battleLoop_battled_id cov bo userId polygon duration laps avgSpeed rest _ rfl]
      simp [List.append_assoc]
    · have hf' : List.find? (fun u => decide (cov polygon u.geometry ≥ 70)) rest = some t := by
        rwa [List.find?_cons_of_neg _ (by simpa using hcov)] at hf
      simp only [battleLoop]
      rw [if_neg (by rintro ⟨h70, -⟩; exact hcov h70)]
      rw [ih _ t (by simpa using hb) hf' hlost]
      simp [List.append_assoc]

/-- C1 (amended): only the first rival whose coverage reaches 70 is ever
battled, in pre-filter order. When the challenger loses that battle the
outcome is defended and no Territory record is created or altered — but
exactly one Attempt record is still created. Losing verdicts that would
arise against rivals after the first battled one are never computed and do
not influence the outcome. -/
theorem first_lost_defended_single_attempt {P : Type} (T : Turf P)
    (cov : P → P → ℚ) (bo : Territory P → ℚ → ℚ → Bool) (userId freshId : ℕ)
    (polygon : P) (duration laps avgSpeed : ℚ) (ts : List (Territory P))
    (t : Territory P)
    (hfind : List.find? (fun u => decide (cov polygon u.geometry ≥ 70)) ts = some t)
    (hlost : bo t duration laps = false) :
    (runHandler T cov bo userId freshId polygon duration laps avgSpeed ts).defended = true ∧
    (runHandler T cov bo userId freshId polygon duration laps avgSpeed ts).captured = false ∧
    (runHandler T cov bo userId freshId polygon duration laps avgSpeed ts).created = false ∧
    (runHandler T cov bo userId freshId polygon duration laps avgSpeed ts).savedTerritories = ts ∧
    (runHandler T cov bo userId freshId polygon duration laps avgSpeed ts).newTerritory = none ∧
    (runHandler T cov bo userId freshId polygon duration laps avgSpeed ts).attempts =
      [{ userId := userId, territoryId := t.id, duration := duration,
         laps := laps, avgSpeed := avgSpeed }] := by
  have hne : ts ≠ [] := by
    intro h
    rw [h] at hfind
    simp [List.find?] at hfind
  have hemp : ts.isEmpty = false := by
    cases ts with
    | nil => exact absurd rfl hne
    | cons a l => rfl
  have hloop := battleLoop_first_lost cov bo userId polygon duration laps avgSpeed ts
    initLoopState t rfl hfind hlost
  unfold runHandler
  rw [hemp]
  simp only [Bool.false_eq_true, if_false, hloop]
  simp [initLoopState]

/-- Witness for C1 (amended): a single rival at full coverage whose battle
the challenger loses yields defended, unchanged territories and one
Attempt record. -/
theorem first_lost_defended_single_attempt_witness :
    (runHandler rectTurf covAll boNever 5 99 wSquare 60 2 3 [tA]).defended = true ∧
    (runHandler rectTurf covAll boNever 5 99 wSquare 60 2 3 [tA]).captured = false ∧
    (runHandler rectTurf covAll boNever 5 99 wSquare 60 2 3 [tA]).created = false ∧
    (runHandler rectTurf covAll boNever 5 99 wSquare 60 2 3 [tA]).savedTerritories = [tA] ∧
    (runHandler rectTurf covAll boNever 5 99 wSquare 60 2 3 [tA]).newTerritory = none ∧
    (runHandler rectTurf covAll boNever 5 99 wSquare 60 2 3 [tA]).attempts =
      [{ userId := 5, territoryId := tA.id, duration := 60, laps := 2, avgSpeed := 3 }] :=
  first_lost_defended_single_attempt rectTurf covAll boNever 5 99 wSquare 60 2 3
    [tA] tA (by decide) rfl

/-- Counterexample to C1 as stated: against the rivals `[tA, tB]` the
verdict function `boFirst` makes the challenger beat `tA` and lose to
`tB`, so one rival yields a losing verdict; yet the handler reports
captured, not defended, it overwrites the record of `tA` (the saved
territory list differs from the input), and it creates an Attempt
record. -/
theorem all_or_nothing_counterexample :
    boFirst tB 60 2 = false ∧
    (runHandler rectTurf covAll boFirst 5 99 wSquare 60 2 3 [tA, tB]).defended = false ∧
    (runHandler rectTurf covAll boFirst 5 99 wSquare 60 2 3 [tA, tB]).captured = true ∧
    (runHandler rectTurf covAll boFirst 5 99 wSquare 60 2 3 [tA, tB]).savedTerritories ≠ [tA, tB] ∧
    (runHandler rectTurf covAll boFirst 5 99 wSquare 60 2 3 [tA, tB]).attempts ≠ [] := by
  refine ⟨by decide, by decide, by decide, by decide, by decide⟩

/-- C9: a raw coordinate sequence with fewer than 4 distinct points is
rejected by the normalizer with MalformedPathError; no RunPolygon is
returned (and the normalizer, a pure function, performs no database
interaction). -/
theorem too_few_distinct_points_malformed (rawCoordinates : List Point)
    (h : rawCoordinates.dedup.length < 4) :
    createRunPolygon rawCoordinates = .error .malformedPath := by
  simp [createRunPolygon, h]

/-- Witness for C9: four raw points of which only three are distinct. -/
theorem too_few_distinct_points_malformed_witness :
    createRunPolygon [((0 : ℚ), (0 : ℚ)), (1, 0), (1, 1), (0, 0)] =
      .error .malformedPath :=
  too_few_distinct_points_malformed [((0 : ℚ), (0 : ℚ)), (1, 0), (1, 1), (0, 0)]
    (by decide)

end KadamClash
